import Mathlib

/-
Verification of the session/workflow orchestration layer of the Pythonic
repository against its natural-language specification.

The Python sources are shallowly embedded: pure functions become Lean
functions, fallible code returns `Except`, and the Playwright page-automation
capability (an external collaborator) is abstracted as a record of
explicitly-passed primitive operations whose outcomes are chosen by the
environment.  Machine integers are modelled as `Nat`/`Int` with explicit
wrap-around where the Python code relies on it.
-/

namespace Pythonic

/-! ### OTP generator / verifier (src/utils/auth/otp.py)

The `TOTPProvider` class calls four library primitives:
`hmac.new(key, msg, hashlib.sha1).digest()` (and the sha256/sha512 variants)
and `base64.b32decode`.  Those primitives are external to the repository, so
they are abstracted as a `HashLib` record of byte-list functions; every
theorem quantifies over the record.  Bytes are `Nat`s. -/

deriving instance DecidableEq for Except

/-- Abstract interface to the Python hash/encoding library calls used by
`TOTPProvider._get_hmac`: each `shaN key msg` models
`hmac.new(key, msg, hashlib.shaN).digest()`, and `b32decode` models
`base64.b32decode` on (valid, already padded) base32 input. -/
structure HashLib where
  sha1 : List Nat → List Nat → List Nat
  sha256 : List Nat → List Nat → List Nat
  sha512 : List Nat → List Nat → List Nat
  b32decode : String → List Nat

/-- State stored by `TOTPProvider.__init__`: the base32 secret, the time step
in seconds, the number of OTP digits, and the hash algorithm name. -/
structure TOTPProvider where
  secret : String
  interval : Int
  digits : Nat
  algorithm : String
  deriving Repr, DecidableEq

/-- Python `str.upper` on the ASCII strings used here, written as a character
map. -/
def pyUpper (s : String) : String :=
  String.mk (s.data.map Char.toUpper)

/-- Embedding of `TOTPProvider.__init__`: it stores its arguments, upper-casing
the algorithm, and performs no validation whatsoever (in particular it cannot
raise). -/
def TOTPProvider.init (secret : String) (interval : Int) (digits : Nat)
    (algorithm : String) : TOTPProvider :=
  { secret := secret, interval := interval, digits := digits,
    algorithm := pyUpper algorithm }

/-- Python `struct.pack(">Q", c)`: the eight big-endian bytes of `c`.
`struct.pack` raises unless `0 ≤ c < 2^64`; on that domain this function
agrees with it (the `emod` is the identity there). -/
def packQ (c : Int) : List Nat :=
  let n := (c.emod (2 ^ 64)).toNat
  [n / 2 ^ 56 % 256, n / 2 ^ 48 % 256, n / 2 ^ 40 % 256, n / 2 ^ 32 % 256,
   n / 2 ^ 24 % 256, n / 2 ^ 16 % 256, n / 2 ^ 8 % 256, n % 256]

/-- The padding expression of `TOTPProvider._get_hmac`:
`self.secret + "=" * ((8 - len(self.secret) % 8) % 8)`. -/
def b32pad (secret : String) : String :=
  secret ++ String.mk (List.replicate ((8 - secret.length % 8) % 8) '=')

/-- Embedding of `TOTPProvider._get_hmac`: base32-decode the padded secret as
the key, pack the counter as the message, dispatch on the algorithm name, and
raise `ValueError("Unsupported algorithm")` for anything else. -/
def TOTPProvider._get_hmac (lib : HashLib) (p : TOTPProvider) (counter : Int) :
    Except String (List Nat) :=
  let key := lib.b32decode (b32pad p.secret)
  let msg := packQ counter
  if p.algorithm = "SHA1" then .ok (lib.sha1 key msg)
  else if p.algorithm = "SHA256" then .ok (lib.sha256 key msg)
  else if p.algorithm = "SHA512" then .ok (lib.sha512 key msg)
  else .error "Unsupported algorithm"

/-- Python `str.zfill`: left-pad with `'0'` to the requested width (the OTP
string is all digits, so the sign handling of `zfill` never fires). -/
def zfill (s : String) (width : Nat) : String :=
  String.mk (List.replicate (width - s.length) '0') ++ s

/-- Big-endian byte-list to natural number, as `struct.unpack(">I", buf)` reads
its 4-byte buffer. -/
def beNat (bs : List Nat) : Nat :=
  bs.foldl (fun acc b => acc * 256 + b) 0

/-- The dynamic-truncation block of `TOTPProvider.generate_otp` (the lines
from `offset = hmac_digest[-1] & 0x0F` to the final `return`), as a function
of the digest.  `hmac_digest[-1]` raises `IndexError` on an empty digest and
`struct.unpack(">I", ...)` raises unless its slice has exactly 4 bytes, so
both become `Except` errors. -/
def dynamicTruncate (hmac_digest : List Nat) (digits : Nat) :
    Except String String :=
  match hmac_digest.getLast? with
  | none => .error "IndexError: index out of range"
  | some lastByte =>
    let offset := lastByte &&& 0x0F
    let slice := (hmac_digest.drop offset).take 4
    if slice.length = 4 then
      let binary := beNat slice &&& 0x7FFFFFFF
      let otp := binary % 10 ^ digits
      .ok (zfill (toString otp) digits)
    else .error "struct.error: unpack requires a buffer of 4 bytes"

/-- Embedding of `TOTPProvider.generate_otp` for an explicit timestamp.
`for_time // self.interval` is Python floor division (`Int.fdiv`). -/
def TOTPProvider.generate_otp (lib : HashLib) (p : TOTPProvider)
    (for_time : Int) : Except String String :=
  let counter := Int.fdiv for_time p.interval
  match TOTPProvider._get_hmac lib p counter with
  | .error e => .error e
  | .ok hmac_digest => dynamicTruncate hmac_digest p.digits

/-- The loop of `TOTPProvider.verify` over the already-computed list of test
times: return `True` at the first matching code, propagate any exception from
`generate_otp`, and return `False` when the loop ends. -/
def TOTPProvider.verifyLoop (lib : HashLib) (p : TOTPProvider) (otp : String) :
    List Int → Except String Bool
  | [] => .ok false
  | t :: ts =>
    match TOTPProvider.generate_otp lib p t with
    | .error e => .error e
    | .ok c =>
      if c = otp then .ok true else TOTPProvider.verifyLoop lib p otp ts

/-- Embedding of `TOTPProvider.verify` with the current time passed
explicitly: test `current_time + offset * interval` for
`offset in range(-window, window + 1)`. -/
def TOTPProvider.verify (lib : HashLib) (p : TOTPProvider)
    (current_time : Int) (otp : String) (window : Nat) : Except String Bool :=
  TOTPProvider.verifyLoop lib p otp
    ((List.range (2 * window + 1)).map
      (fun (i : Nat) => current_time + ((i : Int) - (window : Int)) * p.interval))

/-- The keyed hash of the reference computation: the spec's "keyed-hash ...
using the base32-decoded secret" for each supported algorithm name. -/
def specDigest (lib : HashLib) (algorithm : String) (key msg : List Nat) :
    List Nat :=
  if algorithm = "SHA1" then lib.sha1 key msg
  else if algorithm = "SHA256" then lib.sha256 key msg
  else lib.sha512 key msg

/-- The spec's dynamic truncation: "take the low 4 bits of the hash's final
byte as an offset, read the 4 bytes at that offset as an unsigned big-endian
integer, clear its top bit, reduce modulo 10^digits, left-pad with zeros to
`digits` length." -/
def specTruncate (digest : List Nat) (digits : Nat) : String :=
  let offset := digest.getD (digest.length - 1) 0 % 16
  let tail := digest.drop offset
  let word :=
    tail.getD 0 0 * 2 ^ 24 + tail.getD 1 0 * 2 ^ 16 +
      tail.getD 2 0 * 2 ^ 8 + tail.getD 3 0
  zfill (toString (word % 2 ^ 31 % 10 ^ digits)) digits

/-- Reference TOTP computation, written from the specification's words:
"counter = ⌊for_time / interval⌋; keyed-hash over the big-endian 8-byte
counter using the base32-decoded secret (right-padded to a multiple of 8
characters before decoding)", followed by dynamic truncation. -/
def referenceTOTP (lib : HashLib) (secret : String) (interval : Int)
    (digits : Nat) (algorithm : String) (for_time : Int) : String :=
  let counter := Int.fdiv for_time interval
  let key := lib.b32decode (b32pad secret)
  specTruncate (specDigest lib algorithm key (packQ counter)) digits

/-- Digest-length side condition satisfied by the real library: SHA-1, SHA-256
and SHA-512 HMAC digests have 20, 32 and 64 bytes; every theorem only needs a
lower bound of 20. -/
def HashLib.DigestLen20 (lib : HashLib) : Prop :=
  ∀ key msg, 20 ≤ (lib.sha1 key msg).length ∧ 20 ≤ (lib.sha256 key msg).length ∧
    20 ≤ (lib.sha512 key msg).length

/-! #### Helper lemmas about the OTP computation -/

lemma getLast?_eq_getD_of_ne_nil (l : List Nat) (h : l ≠ []) :
    l.getLast? = some (l.getD (l.length - 1) 0) := by
  rw [List.getLast?_eq_getElem?, List.getD_eq_getElem?_getD]
  rcases l with _ | ⟨a, as⟩
  · simp at h
  · simp [List.getElem?_eq_getElem, Nat.lt_succ_self]

lemma exists_four_cons (l : List Nat) (h : 4 ≤ l.length) :
    ∃ a b c d rest, l = a :: b :: c :: d :: rest := by
  match l with
  | a :: b :: c :: d :: rest => exact ⟨a, b, c, d, rest, rfl⟩
  | [] | [_] | [_, _] | [_, _, _] => simp at h

/-- On a digest of at least 20 bytes (every supported HMAC digest), dynamic
truncation never raises and computes exactly the specification's formula: low
4 bits of the final byte as offset, the 4 bytes there as a big-endian word,
top bit cleared, reduced mod `10^digits`, zero-padded. -/
lemma dynamicTruncate_eq (d : List Nat) (h20 : 20 ≤ d.length) (digits : Nat) :
    dynamicTruncate d digits = .ok (specTruncate d digits) := by
  simp only [specTruncate]
  have hne : d ≠ [] := by
    intro hnil
    rw [hnil] at h20
    simp at h20
  have hoff : ∀ n : Nat, n &&& 0x0F = n % 16 := fun n => by
    simpa using Nat.and_pow_two_sub_one_eq_mod n 4
  have hword : ∀ n : Nat, n &&& 0x7FFFFFFF = n % 2 ^ 31 := fun n => by
    simpa using Nat.and_pow_two_sub_one_eq_mod n 31
  have hofflt : d.getD (d.length - 1) 0 % 16 < 16 := Nat.mod_lt _ (by norm_num)
  have hlen4 : 4 ≤ (d.drop (d.getD (d.length - 1) 0 % 16)).length := by
    rw [List.length_drop]; omega
  obtain ⟨a, b, c, e, rest, htail⟩ := exists_four_cons _ hlen4
  simp only [dynamicTruncate, getLast?_eq_getD_of_ne_nil d hne, hoff, htail]
  simp only [List.take, List.length_cons, List.length_nil, List.getD_cons_zero,
    List.getD_cons_succ, if_pos rfl, beNat, List.foldl, hword]
  have : ((((0 * 256 + a) * 256 + b) * 256 + c) * 256 + e) =
      a * 2 ^ 24 + b * 2 ^ 16 + c * 2 ^ 8 + e := by ring
  rw [this]
  simp

lemma _get_hmac_eq_specDigest (lib : HashLib) (p : TOTPProvider)
    (counter : Int)
    (halg : p.algorithm = "SHA1" ∨ p.algorithm = "SHA256" ∨
      p.algorithm = "SHA512") :
    TOTPProvider._get_hmac lib p counter =
      .ok (specDigest lib p.algorithm (lib.b32decode (b32pad p.secret))
        (packQ counter)) := by
  rcases halg with h | h | h <;> simp [TOTPProvider._get_hmac, specDigest, h]

lemma specDigest_length (lib : HashLib) (alg : String) (key msg : List Nat)
    (hlen : lib.DigestLen20) : 20 ≤ (specDigest lib alg key msg).length := by
  obtain ⟨h1, h256, h512⟩ := hlen key msg
  unfold specDigest
  split
  · exact h1
  split
  · exact h256
  · exact h512

lemma generate_otp_of_hmac_ok (lib : HashLib) (p : TOTPProvider) (t : Int)
    (d : List Nat)
    (hd : TOTPProvider._get_hmac lib p (Int.fdiv t p.interval) = .ok d) :
    TOTPProvider.generate_otp lib p t = dynamicTruncate d p.digits := by
  simp only [TOTPProvider.generate_otp, hd]

/-- For a supported algorithm and honestly-sized digests, `generate_otp`
succeeds and returns exactly the specification's reference computation. -/
lemma generate_otp_eq_reference (lib : HashLib) (p : TOTPProvider) (t : Int)
    (halg : p.algorithm = "SHA1" ∨ p.algorithm = "SHA256" ∨
      p.algorithm = "SHA512")
    (hlen : lib.DigestLen20) :
    TOTPProvider.generate_otp lib p t =
      .ok (referenceTOTP lib p.secret p.interval p.digits p.algorithm t) := by
  rw [generate_otp_of_hmac_ok lib p t _ (_get_hmac_eq_specDigest lib p _ halg),
    dynamicTruncate_eq _ (specDigest_length lib p.algorithm _ _ hlen)]
  rfl

/-- The generated code depends on `for_time` only through the counter
`for_time // interval`. -/
lemma generate_otp_bucket (lib : HashLib) (p : TOTPProvider) (t t' : Int)
    (h : Int.fdiv t' p.interval = Int.fdiv t p.interval) :
    TOTPProvider.generate_otp lib p t' = TOTPProvider.generate_otp lib p t := by
  simp only [TOTPProvider.generate_otp, h]

/-- Under a supported algorithm and honest digest sizes, `generate_otp` never
raises. -/
lemma generate_otp_isOk (lib : HashLib) (p : TOTPProvider) (t : Int)
    (halg : p.algorithm = "SHA1" ∨ p.algorithm = "SHA256" ∨
      p.algorithm = "SHA512")
    (hlen : lib.DigestLen20) :
    ∃ c, TOTPProvider.generate_otp lib p t = .ok c :=
  ⟨_, generate_otp_eq_reference lib p t halg hlen⟩

lemma verifyLoop_cons_of_ok (lib : HashLib) (p : TOTPProvider) (otp c : String)
    (t : Int) (ts : List Int)
    (hc : TOTPProvider.generate_otp lib p t = .ok c) :
    TOTPProvider.verifyLoop lib p otp (t :: ts) =
      if c = otp then .ok true else TOTPProvider.verifyLoop lib p otp ts := by
  rw [TOTPProvider.verifyLoop, hc]

lemma verifyLoop_ok_true_iff (lib : HashLib) (p : TOTPProvider) (otp : String)
    (ts : List Int)
    (h : ∀ t ∈ ts, ∃ c, TOTPProvider.generate_otp lib p t = .ok c) :
    TOTPProvider.verifyLoop lib p otp ts = .ok true ↔
      ∃ t ∈ ts, TOTPProvider.generate_otp lib p t = .ok otp := by
  induction ts with
  | nil => simp [TOTPProvider.verifyLoop]
  | cons t ts ih =>
    obtain ⟨c, hc⟩ := h t (List.mem_cons_self t ts)
    rw [verifyLoop_cons_of_ok lib p otp c t ts hc]
    by_cases hco : c = otp
    · subst hco
      rw [if_pos rfl]
      constructor
      · intro _
        exact ⟨t, List.mem_cons_self t ts, hc⟩
      · intro _
        rfl
    · rw [if_neg hco, ih (fun u hu => h u (List.mem_cons_of_mem _ hu))]
      constructor
      · rintro ⟨u, hu, hgen⟩
        exact ⟨u, List.mem_cons_of_mem _ hu, hgen⟩
      · rintro ⟨u, hu, hgen⟩
        rcases List.mem_cons.mp hu with rfl | hu
        · rw [hc] at hgen
          exact absurd (Except.ok.inj hgen) hco
        · exact ⟨u, hu, hgen⟩

lemma verifyLoop_ok_false (lib : HashLib) (p : TOTPProvider) (otp : String)
    (ts : List Int)
    (h : ∀ t ∈ ts, ∃ c, TOTPProvider.generate_otp lib p t = .ok c)
    (hno : ∀ t ∈ ts, TOTPProvider.generate_otp lib p t ≠ .ok otp) :
    TOTPProvider.verifyLoop lib p otp ts = .ok false := by
  induction ts with
  | nil => rfl
  | cons t ts ih =>
    obtain ⟨c, hc⟩ := h t (List.mem_cons_self t ts)
    rw [verifyLoop_cons_of_ok lib p otp c t ts hc]
    have hco : ¬ c = otp := by
      intro hco
      exact hno t (List.mem_cons_self t ts) (hco ▸ hc)
    rw [if_neg hco]
    exact ih (fun u hu => h u (List.mem_cons_of_mem _ hu))
      (fun u hu => hno u (List.mem_cons_of_mem _ hu))

/-- Membership in the list of test times generated by `verify`'s
`range(-window, window + 1)` loop. -/
lemma mem_testTimes_iff (now itv : Int) (w : Nat) (t : Int) :
    (t ∈ (List.range (2 * w + 1)).map
        (fun (i : Nat) => now + ((i : Int) - (w : Int)) * itv)) ↔
      ∃ k : Int, -(w : Int) ≤ k ∧ k ≤ (w : Int) ∧ t = now + k * itv := by
  constructor
  · intro ht
    obtain ⟨i, hi, hfi⟩ := List.mem_map.mp ht
    have hi' := List.mem_range.mp hi
    exact ⟨(i : Int) - (w : Int), by omega, by omega, hfi.symm⟩
  · rintro ⟨k, h1, h2, rfl⟩
    refine List.mem_map.mpr
      ⟨(k + (w : Int)).toNat, List.mem_range.mpr (by omega), ?_⟩
    rw [show ((((k + (w : Int)).toNat) : Int) - (w : Int)) = k by omega]

/-! #### Concrete instances used by the witnesses -/

/-- A concrete `HashLib` with constant digests of the real SHA-1/SHA-256/
SHA-512 lengths, used to evaluate the theorems at explicit inputs. -/
def lib0 : HashLib :=
  { sha1 := fun _ _ => List.replicate 20 1
    sha256 := fun _ _ => List.replicate 32 2
    sha512 := fun _ _ => List.replicate 64 3
    b32decode := fun _ => [] }

lemma lib0_digestLen : lib0.DigestLen20 := by
  intro key msg
  refine ⟨?_, ?_, ?_⟩ <;> simp [lib0]

/-- A concrete provider with the constructor defaults
(`interval = 30`, `digits = 6`, `algorithm = "SHA1"`). -/
def p0 : TOTPProvider := TOTPProvider.init "GEZDGNBVGY" 30 6 "sha1"

/-! #### Claim theorems for the OTP component -/

/-- C1: for every OTP config with algorithm in {SHA1, SHA256, SHA512} (and
digests of the honest library sizes) and every timestamp, `generate_otp`
equals the reference TOTP computation of the spec — counter
`⌊for_time / interval⌋`, HMAC of the 8-byte big-endian counter keyed with the
base32 decoding of the padded secret, dynamic truncation, top bit cleared,
mod `10^digits`, zero-padded — and the result depends on `for_time` only
through `⌊for_time / interval⌋`. -/
theorem generate_otp_matches_reference (lib : HashLib) (p : TOTPProvider)
    (t : Int)
    (halg : p.algorithm = "SHA1" ∨ p.algorithm = "SHA256" ∨
      p.algorithm = "SHA512")
    (hlen : lib.DigestLen20) :
    TOTPProvider.generate_otp lib p t =
      .ok (referenceTOTP lib p.secret p.interval p.digits p.algorithm t) ∧
    ∀ t' : Int, Int.fdiv t' p.interval = Int.fdiv t p.interval →
      TOTPProvider.generate_otp lib p t' = TOTPProvider.generate_otp lib p t :=
  ⟨generate_otp_eq_reference lib p t halg hlen,
   fun t' h => generate_otp_bucket lib p t t' h⟩

/-- Witness for C1 at a concrete config and the timestamps 59 and 31 (the
same 30-second bucket). -/
theorem generate_otp_matches_reference_witness :
    TOTPProvider.generate_otp lib0 p0 59 =
      .ok (referenceTOTP lib0 p0.secret p0.interval p0.digits p0.algorithm 59)
    ∧ TOTPProvider.generate_otp lib0 p0 31 =
      TOTPProvider.generate_otp lib0 p0 59 := by
  have h := generate_otp_matches_reference lib0 p0 59 (Or.inl (by decide))
    lib0_digestLen
  exact ⟨h.1, h.2 31 (by decide)⟩

/-- C2 counterexample: constructing `TOTPProvider` with the unrecognized
algorithm "MD5" completes normally — `__init__` performs no validation and
stores the algorithm — and the `ValueError("Unsupported algorithm")` is
raised only later, by the first `generate_otp` call.  This refutes the
claim's "raises a configuration error at construction time, before any code
is generated". -/
theorem totp_construction_accepts_unknown_algorithm :
    (TOTPProvider.init "GEZDGNBVGY" 30 6 "MD5").algorithm = "MD5" ∧
    TOTPProvider.generate_otp lib0 (TOTPProvider.init "GEZDGNBVGY" 30 6 "MD5")
      59 = .error "Unsupported algorithm" := by
  exact ⟨by decide, by decide⟩

/-- C2 (amended): an algorithm outside {SHA1, SHA256, SHA512} is stored
as-is (upper-cased) at construction — never silently defaulted to a
supported one — and every subsequent `generate_otp` call raises
`ValueError("Unsupported algorithm")`. -/
theorem generate_otp_unsupported_algorithm (lib : HashLib) (secret : String)
    (interval : Int) (digits : Nat) (algorithm : String) (t : Int)
    (h1 : ¬ pyUpper algorithm = "SHA1")
    (h256 : ¬ pyUpper algorithm = "SHA256")
    (h512 : ¬ pyUpper algorithm = "SHA512") :
    (TOTPProvider.init secret interval digits algorithm).algorithm =
      pyUpper algorithm ∧
    TOTPProvider.generate_otp lib
      (TOTPProvider.init secret interval digits algorithm) t =
      .error "Unsupported algorithm" := by
  refine ⟨rfl, ?_⟩
  simp only [TOTPProvider.generate_otp, TOTPProvider._get_hmac,
    TOTPProvider.init, if_neg h1, if_neg h256, if_neg h512]

/-- Witness for the amended C2 at the concrete algorithm "md5". -/
theorem generate_otp_unsupported_algorithm_witness :
    (TOTPProvider.init "GEZDGNBVGY" 30 6 "md5").algorithm = pyUpper "md5" ∧
    TOTPProvider.generate_otp lib0 (TOTPProvider.init "GEZDGNBVGY" 30 6 "md5")
      0 = .error "Unsupported algorithm" :=
  generate_otp_unsupported_algorithm lib0 "GEZDGNBVGY" 30 6 "md5" 0
    (by decide) (by decide) (by decide)

/-- C3: `verify(code, window = w)` returns true iff `code` equals
`generate_otp` at one of the `2*w+1` time points `now + k*interval` for
`k ∈ [-w, w]`; with window 1 it accepts every code generated at
`now - interval`, `now`, or `now + interval`, and returns false for any code
(such as one generated at `now ± 2*interval`) that differs from all three
in-window codes. -/
theorem verify_window_characterization (lib : HashLib) (p : TOTPProvider)
    (now : Int) (code : String) (w : Nat)
    (halg : p.algorithm = "SHA1" ∨ p.algorithm = "SHA256" ∨
      p.algorithm = "SHA512")
    (hlen : lib.DigestLen20) :
    (TOTPProvider.verify lib p now code w = .ok true ↔
      ∃ k : Int, -(w : Int) ≤ k ∧ k ≤ (w : Int) ∧
        TOTPProvider.generate_otp lib p (now + k * p.interval) = .ok code) ∧
    (∀ c : String, ∀ k : Int, -1 ≤ k → k ≤ 1 →
      TOTPProvider.generate_otp lib p (now + k * p.interval) = .ok c →
      TOTPProvider.verify lib p now c 1 = .ok true) ∧
    (∀ c : String,
      (∀ k : Int, -1 ≤ k → k ≤ 1 →
        TOTPProvider.generate_otp lib p (now + k * p.interval) ≠ .ok c) →
      TOTPProvider.verify lib p now c 1 = .ok false) := by
  have hgen : ∀ t : Int, ∃ c, TOTPProvider.generate_otp lib p t = .ok c :=
    fun t => generate_otp_isOk lib p t halg hlen
  have main : ∀ (c : String) (w' : Nat),
      TOTPProvider.verify lib p now c w' = .ok true ↔
        ∃ k : Int, -(w' : Int) ≤ k ∧ k ≤ (w' : Int) ∧
          TOTPProvider.generate_otp lib p (now + k * p.interval) = .ok c := by
    intro c w'
    rw [TOTPProvider.verify,
      verifyLoop_ok_true_iff lib p c _ (fun t _ => hgen t)]
    constructor
    · rintro ⟨tt, htt, hg⟩
      obtain ⟨k, hk1, hk2, rfl⟩ :=
        (mem_testTimes_iff now p.interval w' tt).mp htt
      exact ⟨k, hk1, hk2, hg⟩
    · rintro ⟨k, hk1, hk2, hg⟩
      exact ⟨now + k * p.interval,
        (mem_testTimes_iff now p.interval w' _).mpr ⟨k, hk1, hk2, rfl⟩, hg⟩
  refine ⟨main code w, ?_, ?_⟩
  · intro c k hk1 hk2 hg
    exact (main c 1).mpr ⟨k, by simpa using hk1, by simpa using hk2, hg⟩
  · intro c hno
    rw [TOTPProvider.verify]
    apply verifyLoop_ok_false lib p c _ (fun t _ => hgen t)
    intro t ht
    obtain ⟨k, hk1, hk2, rfl⟩ := (mem_testTimes_iff now p.interval 1 t).mp ht
    exact hno k (by simpa using hk1) (by simpa using hk2)

/-- Witness for C3: with window 1, the concrete provider accepts the code
generated at the current time bucket. -/
theorem verify_window_characterization_witness :
    TOTPProvider.verify lib0 p0 1000 "843009" 1 = .ok true := by
  have h := verify_window_characterization lib0 p0 1000 "843009" 1
    (Or.inl (by decide)) lib0_digestLen
  exact h.2.1 "843009" 0 (by decide) (by decide) (by decide)

/-! ### get_months_between (src/utils/report_dates.py)

`get_months_between` parses its two arguments with
`datetime.strptime(s, "%m/%d/%Y")`; a parsed `datetime` always satisfies
`1 ≤ month ≤ 12` and `1 ≤ day`, so the embedding works on parsed dates
carrying those invariants (they are exactly what `datetime.replace`
re-validates on every loop step). -/

/-- A parsed calendar date as produced by `strptime(s, "%m/%d/%Y")`. -/
structure PDate where
  year : Nat
  month : Nat
  day : Nat
  month_ge : 1 ≤ month
  month_le : month ≤ 12
  day_ge : 1 ≤ day

/-- Python `datetime` strict comparison: lexicographic on
(year, month, day). -/
def PDate.lt (a b : PDate) : Prop :=
  a.year < b.year ∨ (a.year = b.year ∧
    (a.month < b.month ∨ (a.month = b.month ∧ a.day < b.day)))

/-- Python `datetime` comparison `<=`: lexicographic on (year, month, day). -/
def PDate.le (a b : PDate) : Prop :=
  a.year < b.year ∨ (a.year = b.year ∧
    (a.month < b.month ∨ (a.month = b.month ∧ a.day ≤ b.day)))

instance (a b : PDate) : Decidable (PDate.lt a b) := by
  unfold PDate.lt; infer_instance

instance (a b : PDate) : Decidable (PDate.le a b) := by
  unfold PDate.le; infer_instance

/-- The `strftime("%B")` full month names (C locale). -/
def monthName : Nat → String
  | 1 => "January"
  | 2 => "February"
  | 3 => "March"
  | 4 => "April"
  | 5 => "May"
  | 6 => "June"
  | 7 => "July"
  | 8 => "August"
  | 9 => "September"
  | 10 => "October"
  | 11 => "November"
  | 12 => "December"
  | _ => ""

/-- The `current.strftime("%B %Y")` label appended by the loop. -/
def PDate.label (d : PDate) : String :=
  monthName d.month ++ " " ++ toString d.year

/-- Month index `year * 12 + (month - 1)`, the measure the loop advances
by one. -/
def PDate.idx (d : PDate) : Nat := d.year * 12 + (d.month - 1)

/-- The label determined by a month index alone. -/
def labelIdx (i : Nat) : String :=
  monthName (i % 12 + 1) ++ " " ++ toString (i / 12)

/-- The month-advance step of the loop:
`current.replace(year=current.year+1, month=1)` after December, otherwise
`current.replace(month=current.month+1)` (both re-validated by `datetime`). -/
def monthStep (d : PDate) : PDate :=
  if h : d.month = 12 then
    { year := d.year + 1, month := 1, day := d.day,
      month_ge := le_refl 1, month_le := by omega, day_ge := d.day_ge }
  else
    { year := d.year, month := d.month + 1, day := d.day,
      month_ge := by omega,
      month_le := by have := d.month_le; omega,
      day_ge := d.day_ge }

lemma monthStep_idx (d : PDate) : (monthStep d).idx = d.idx + 1 := by
  have h1 := d.month_ge
  have h2 := d.month_le
  unfold monthStep
  split
  · simp only [PDate.idx]
    omega
  · simp only [PDate.idx]
    omega

lemma monthStep_day (d : PDate) : (monthStep d).day = d.day := by
  unfold monthStep
  split <;> rfl

lemma PDate.le_idx (a b : PDate) (h : PDate.le a b) : a.idx ≤ b.idx := by
  have h1 := a.month_ge
  have h2 := a.month_le
  have h3 := b.month_ge
  have h4 := b.month_le
  unfold PDate.le at h
  unfold PDate.idx
  rcases h with h | ⟨hy, h⟩
  · omega
  rcases h with h | ⟨hm, _⟩
  · omega
  · omega

lemma PDate.idx_le (a b : PDate) (h : a.idx ≤ b.idx) (hday : a.day = 1) :
    PDate.le a b := by
  have h1 := a.month_ge
  have h2 := a.month_le
  have h3 := b.month_ge
  have h4 := b.month_le
  have h5 := b.day_ge
  unfold PDate.idx at h
  unfold PDate.le
  by_cases hy : a.year = b.year
  · right
    refine ⟨hy, ?_⟩
    by_cases hm : a.month = b.month
    · right
      exact ⟨hm, by omega⟩
    · left
      omega
  · left
    omega

lemma PDate.not_lt_idx (a b : PDate) (h : ¬ PDate.lt b a) : a.idx ≤ b.idx := by
  have h1 := a.month_ge
  have h2 := a.month_le
  have h3 := b.month_ge
  have h4 := b.month_le
  unfold PDate.lt at h
  unfold PDate.idx
  by_cases hy : b.year = a.year
  · by_cases hm : b.month < a.month
    · exact absurd (Or.inr ⟨hy, Or.inl hm⟩) h
    · omega
  · have : ¬ b.year < a.year := fun hlt => h (Or.inl hlt)
    omega

lemma PDate.label_eq_labelIdx (d : PDate) : PDate.label d = labelIdx d.idx := by
  have h1 := d.month_ge
  have h2 := d.month_le
  unfold PDate.label labelIdx PDate.idx
  rw [show (d.year * 12 + (d.month - 1)) % 12 + 1 = d.month by omega,
    show (d.year * 12 + (d.month - 1)) / 12 = d.year by omega]

/-- The `while current <= end_date` loop of `get_months_between`: append the
current month's label and move to the next month. -/
def monthLoop (endD : PDate) (current : PDate) : List String :=
  if h : PDate.le current endD then
    PDate.label current :: monthLoop endD (monthStep current)
  else []
termination_by endD.idx + 1 - current.idx
decreasing_by
  have hle := PDate.le_idx current endD h
  rw [monthStep_idx]
  omega

/-- Python `start_date.replace(day=1)`. -/
def firstOfMonth (d : PDate) : PDate :=
  { year := d.year, month := d.month, day := 1,
    month_ge := d.month_ge, month_le := d.month_le, day_ge := le_refl 1 }

/-- Embedding of `get_months_between` on parsed dates: swap so the start is
the earlier date, start from the first day of the start month, and collect
labels while `current <= end_date`. -/
def get_months_between (start_date end_date : PDate) : List String :=
  let p :=
    if PDate.lt end_date start_date then (end_date, start_date)
    else (start_date, end_date)
  monthLoop p.2 (firstOfMonth p.1)

lemma monthLoop_closed_form (e : PDate) :
    ∀ (n : Nat) (c : PDate), e.idx + 1 - c.idx ≤ n → c.day = 1 →
      monthLoop e c =
        (List.range (e.idx + 1 - c.idx)).map (fun j => labelIdx (c.idx + j)) := by
  intro n
  induction n with
  | zero =>
    intro c hn _
    have hgt : e.idx < c.idx := by omega
    rw [monthLoop, dif_neg (fun hle => by have := PDate.le_idx c e hle; omega)]
    rw [show e.idx + 1 - c.idx = 0 by omega]
    rfl
  | succ n ih =>
    intro c hn hday
    by_cases hc : c.idx ≤ e.idx
    · have hle : PDate.le c e := PDate.idx_le c e hc hday
      rw [monthLoop, dif_pos hle]
      have hstep := ih (monthStep c) (by rw [monthStep_idx]; omega)
        (by rw [monthStep_day]; exact hday)
      rw [hstep, monthStep_idx, PDate.label_eq_labelIdx]
      rw [show e.idx + 1 - c.idx = (e.idx - c.idx) + 1 by omega,
        List.range_succ_eq_map, List.map_cons, List.map_map]
      rw [show e.idx + 1 - (c.idx + 1) = e.idx - c.idx by omega]
      refine congrArg₂ List.cons (by rw [Nat.add_zero]) ?_
      apply List.map_congr_left
      intro j _
      simp only [Function.comp_apply]
      rw [show c.idx + (j + 1) = c.idx + 1 + j by omega]
    · rw [monthLoop, dif_neg (fun hle => by have := PDate.le_idx c e hle; omega)]
      rw [show e.idx + 1 - c.idx = 0 by omega]
      rfl

/-- Closed form of `get_months_between`: the labels of every month index from
the smaller of the two month indices up to the larger, inclusive, in
ascending order. -/
lemma get_months_between_closed_form (a b : PDate) :
    get_months_between a b =
      (List.range (max a.idx b.idx + 1 - min a.idx b.idx)).map
        (fun j => labelIdx (min a.idx b.idx + j)) := by
  have hfidx : ∀ d : PDate, (firstOfMonth d).idx = d.idx := fun d => rfl
  simp only [get_months_between]
  by_cases hlt : PDate.lt b a
  · rw [if_pos hlt]
    have hba : b.idx ≤ a.idx :=
      PDate.le_idx b a (by
        unfold PDate.lt at hlt
        unfold PDate.le
        rcases hlt with h | ⟨hy, h⟩
        · exact Or.inl h
        rcases h with h | ⟨hm, hd⟩
        · exact Or.inr ⟨hy, Or.inl h⟩
        · exact Or.inr ⟨hy, Or.inr ⟨hm, Nat.le_of_lt hd⟩⟩)
    have hcf := monthLoop_closed_form a (a.idx + 1) (firstOfMonth b)
      (by rw [hfidx]; omega) rfl
    rw [hfidx] at hcf
    rw [hcf, Nat.max_eq_left hba, Nat.min_eq_right hba]
  · rw [if_neg hlt]
    have hab : a.idx ≤ b.idx := PDate.not_lt_idx a b hlt
    have hcf := monthLoop_closed_form b (b.idx + 1) (firstOfMonth a)
      (by rw [hfidx]; omega) rfl
    rw [hfidx] at hcf
    rw [hcf, Nat.max_eq_right hab, Nat.min_eq_left hab]

/-- The date 05/01/2022, parsed. -/
def date05012022 : PDate :=
  { year := 2022, month := 5, day := 1,
    month_ge := by omega, month_le := by omega, day_ge := by omega }

/-- The date 02/24/2026, parsed. -/
def date02242026 : PDate :=
  { year := 2026, month := 2, day := 24,
    month_ge := by omega, month_le := by omega, day_ge := by omega }

/-- C7: `get_months_between` returns the inclusive, ascending list of
"Month YYYY" labels from the earlier date's month to the later date's month
(the labels of every month index from `min` to `max`), it is symmetric in its
two arguments, and on 05/01/2022 and 02/24/2026 it starts at "May 2022" and
ends at "February 2026". -/
theorem get_months_between_spec :
    (∀ a b : PDate,
      get_months_between a b =
        (List.range (max a.idx b.idx + 1 - min a.idx b.idx)).map
          (fun j => labelIdx (min a.idx b.idx + j)) ∧
      get_months_between a b = get_months_between b a) ∧
    (get_months_between date05012022 date02242026).head? = some "May 2022" ∧
    (get_months_between date05012022 date02242026).getLast? =
      some "February 2026" := by
  refine ⟨fun a b => ⟨get_months_between_closed_form a b, ?_⟩, ?_, ?_⟩
  · rw [get_months_between_closed_form a b, get_months_between_closed_form b a,
      Nat.max_comm, Nat.min_comm]
  · rw [get_months_between_closed_form date05012022 date02242026]
    decide
  · rw [get_months_between_closed_form date05012022 date02242026]
    decide

/-! ### ExperityReports (src/utils/automation/experity/experity_reports.py)

`ExperityReports` composes the `ExperityBase` and `BrowserManager` operations;
those operations drive the external browser, so they are abstracted as an
`ExpEnv` record of `Except`-valued calls whose outcomes the environment
chooses.  Each composite method is modelled as the ordered trace of the calls
it attempts (`Ev` events) together with its `Except` outcome, so that
catch/log/continue versus catch/log/re-raise is visible in the result. -/

/-- Python `str.replace(old, new)` for a one-character pattern: replace every
occurrence of the character. -/
def replace1 (old new : Char) : List Char → List Char
  | [] => []
  | c :: cs => (if c = old then new else c) :: replace1 old new cs

/-- Python `s.replace(old, new)` on strings, one-character pattern. -/
def pyReplace (s : String) (old new : Char) : String :=
  String.mk (replace1 old new s.data)

/-- An `ExperityBase`/`BrowserManager` call attempted by an
`ExperityReports` method (popup pages are numeric handles). -/
inductive Ev where
  | navigate (target : String)
  | search (name : String)
  | selectR (title : String)
  | selMonth (label : String)
  | selMonths (fromLabel toLabel : String)
  | selDates (fromDate toDate : String)
  | run
  | download (file fmt : String)
  | pclose
  deriving Repr, DecidableEq

/-- A modelled computation: the ordered trace of attempted calls and the
outcome. -/
def Tr (α : Type) : Type := List Ev × Except String α

/-- A single call: its event is recorded whether or not it raises. -/
def call {α : Type} (ev : Ev) (r : Except String α) : Tr α := ([ev], r)

/-- Sequencing: an exception aborts the rest of the `try` block but keeps the
trace of what was already attempted. -/
def tbind {α β : Type} (x : Tr α) (f : α → Tr β) : Tr β :=
  match x with
  | (evs, .error e) => (evs, .error e)
  | (evs, .ok a) =>
    let y := f a
    (evs ++ y.1, y.2)

/-- Outcomes of the `ExperityBase` / `BrowserManager` operations that
`ExperityReports` composes, chosen by the environment. -/
structure ExpEnv where
  open_portal : Except String Unit
  user_login : String → String → Except String Unit
  enter_otp : String → Except String Unit
  user_logout : Except String Unit
  manager_close : Except String Unit
  collect_exception_artifacts : Except String Unit
  navigate_page : String → Except String Unit
  search_report : String → Except String Unit
  select_report : String → Except String Unit
  select_month : String → Except String Unit
  select_months : String → String → Except String Unit
  select_dates : String → String → Except String Unit
  run_report : Except String Nat
  download_report : Nat → String → String → Except String Unit
  page_close : Nat → Except String Unit

/-- The `Credentials` frozen dataclass (src/utils/auth/credentials.py). -/
structure Credentials where
  client_id : String
  username : String
  password : String
  auth_passphrase : Option String

/-- Body of `ExperityReports.login` (the `try` block): open the portal, log
in, and if the passphrase is truthy (Python: not `None` and not empty),
construct a `TOTPProvider` with the defaults and submit a generated OTP. -/
def ExperityReports.login_body (lib : HashLib) (env : ExpEnv) (now : Int)
    (credentails : Credentials) : Except String Unit :=
  match env.open_portal with
  | .error e => .error e
  | .ok _ =>
    match env.user_login credentails.username credentails.password with
    | .error e => .error e
    | .ok _ =>
      match credentails.auth_passphrase with
      | none => .ok ()
      | some pp =>
        if pp = "" then .ok ()
        else
          match TOTPProvider.generate_otp lib (TOTPProvider.init pp 30 6 "SHA1")
              now with
          | .error e => .error e
          | .ok code => env.enter_otp code

/-- `ExperityReports.login`: the body wrapped in
`try/except Exception: logger.error(...)` — the result is the list of error
log lines, and no exception escapes. -/
def ExperityReports.login (lib : HashLib) (env : ExpEnv) (now : Int)
    (credentails : Credentials) : Except String (List String) :=
  match ExperityReports.login_body lib env now credentails with
  | .ok _ => .ok []
  | .error e => .ok ["Unable to login: " ++ e]

/-- `ExperityReports.logout`: `user_logout` wrapped in catch-and-log. -/
def ExperityReports.logout (env : ExpEnv) : Except String (List String) :=
  match env.user_logout with
  | .ok _ => .ok []
  | .error e => .ok ["Unable to logout: " ++ e]

/-- `ExperityReports.close_browser`: `manager.close` wrapped in
catch-and-log. -/
def ExperityReports.close_browser (env : ExpEnv) : Except String (List String) :=
  match env.manager_close with
  | .ok _ => .ok []
  | .error e => .ok ["Unable to close browser: " ++ e]

/-- `ExperityReports.collect_exception`: `collect_exception_artifacts`
wrapped in catch-and-log. -/
def ExperityReports.collect_exception (env : ExpEnv) :
    Except String (List String) :=
  match env.collect_exception_artifacts with
  | .ok _ => .ok []
  | .error e =>
    .ok ["Unable to collect exception artifacts from experity: " ++ e]

/-- The teardown-containing lifecycle: login, then logout, then close, as in
the `__main__` driver's `finally` block. -/
def ExperityReports.lifecycle (lib : HashLib) (env : ExpEnv) (now : Int)
    (credentails : Credentials) : Except String Unit :=
  match ExperityReports.login lib env now credentails with
  | .error e => .error e
  | .ok _ =>
    match ExperityReports.logout env with
    | .error e => .error e
    | .ok _ =>
      match ExperityReports.close_browser env with
      | .error e => .error e
      | .ok _ => .ok ()

/-- One iteration of the `for month in month_year` loop of
`ExperityReports.month_report`, including its per-item
`try/except ... continue`: the item's trace is kept, its exception is
swallowed. -/
def ExperityReports.month_item (env : ExpEnv) (report_name month : String) :
    List Ev :=
  let file_name := pyReplace (report_name ++ "_" ++ month) ' ' '_'
  let body : Tr Unit :=
    tbind (call (.selMonth month) (env.select_month month)) fun _ =>
    tbind (call .run env.run_report) fun page =>
    tbind (call (.download file_name "csv")
        (env.download_report page file_name "csv")) fun _ =>
    tbind (call (.download file_name "xlsx")
        (env.download_report page file_name "xlsx")) fun _ =>
    call .pclose (env.page_close page)
  body.1

/-- `ExperityReports.month_report`: navigate/search/select once, then run the
per-month loop; a per-month failure is caught and the loop continues, while a
setup failure is logged and re-raised. -/
def ExperityReports.month_report (env : ExpEnv)
    (report_name report_title : String) (month_year : List String) : Tr Unit :=
  tbind (call (.navigate "report") (env.navigate_page "report")) fun _ =>
  tbind (call (.search report_name) (env.search_report report_name)) fun _ =>
  tbind (call (.selectR report_title)
      (env.select_report report_title)) fun _ =>
  ((month_year.map (ExperityReports.month_item env report_name)).flatten, .ok ())

/-- `ExperityReports.month_range_report`: a single navigate/search/select/
select-months/run/download(csv)/download(xlsx)/close sequence whose failures
are logged and re-raised. -/
def ExperityReports.month_range_report (env : ExpEnv)
    (report_name report_title from_month_year to_month_year : String) :
    Tr Unit :=
  let file_name :=
    pyReplace (report_name ++ "_" ++ from_month_year ++ "_" ++ to_month_year)
      ' ' '_'
  tbind (call (.navigate "report") (env.navigate_page "report")) fun _ =>
  tbind (call (.search report_name) (env.search_report report_name)) fun _ =>
  tbind (call (.selectR report_title)
      (env.select_report report_title)) fun _ =>
  tbind (call (.selMonths from_month_year to_month_year)
      (env.select_months from_month_year to_month_year)) fun _ =>
  tbind (call .run env.run_report) fun page =>
  tbind (call (.download file_name "csv")
      (env.download_report page file_name "csv")) fun _ =>
  tbind (call (.download file_name "xlsx")
      (env.download_report page file_name "xlsx")) fun _ =>
  call .pclose (env.page_close page)

/-- `ExperityReports.month_range_report_monthly`: one `month_range_report`
per label with `from == to == label`, each wrapped in the per-item
`try/except ... continue`. -/
def ExperityReports.month_range_report_monthly (env : ExpEnv)
    (report_name report_title : String) (months : List String) : Tr Unit :=
  ((months.map (fun month =>
      (ExperityReports.month_range_report env report_name report_title month
        month).1)).flatten,
   .ok ())

/-- `ExperityReports.date_range_report`: derives the output file stem by the
two `replace` calls of the source, then runs the navigate/search/select/
select-dates/run/download(csv)/download(xlsx)/close sequence; failures are
logged and re-raised. -/
def ExperityReports.date_range_report (env : ExpEnv)
    (report_name report_title from_date to_date : String) : Tr Unit :=
  let file_name :=
    pyReplace (pyReplace (report_name ++ "_" ++ from_date ++ "_" ++ to_date)
      ' ' '_') '/' '_'
  tbind (call (.navigate "report") (env.navigate_page "report")) fun _ =>
  tbind (call (.search report_name) (env.search_report report_name)) fun _ =>
  tbind (call (.selectR report_title)
      (env.select_report report_title)) fun _ =>
  tbind (call (.selDates from_date to_date)
      (env.select_dates from_date to_date)) fun _ =>
  tbind (call .run env.run_report) fun page =>
  tbind (call (.download file_name "csv")
      (env.download_report page file_name "csv")) fun _ =>
  tbind (call (.download file_name "xlsx")
      (env.download_report page file_name "xlsx")) fun _ =>
  call .pclose (env.page_close page)

/-- The specification's file stem: `code + "_" + from + "_" + to` with every
space and every slash replaced by an underscore, as one character map. -/
def specStem (code from_date to_date : String) : String :=
  String.mk ((code ++ "_" ++ from_date ++ "_" ++ to_date).data.map
    (fun c => if c = ' ' ∨ c = '/' then '_' else c))

/-! #### Helper lemmas for the ExperityReports theorems -/

/-- The month labels whose selection was attempted, in order. -/
def selMonthLabels (evs : List Ev) : List String :=
  evs.filterMap (fun ev =>
    match ev with
    | .selMonth m => some m
    | _ => none)

/-- The (from, to) month-range pairs whose selection was attempted, in
order. -/
def selMonthsLabels (evs : List Ev) : List (String × String) :=
  evs.filterMap (fun ev =>
    match ev with
    | .selMonths a b => some (a, b)
    | _ => none)

lemma month_item_attempts (env : ExpEnv) (name m : String) :
    selMonthLabels (ExperityReports.month_item env name m) = [m] := by
  simp only [ExperityReports.month_item, tbind, call]
  cases env.select_month m with
  | error e => simp [selMonthLabels]
  | ok u =>
    simp only []
    cases env.run_report with
    | error e => simp [selMonthLabels]
    | ok page =>
      simp only []
      cases env.download_report page (pyReplace (name ++ "_" ++ m) ' ' '_')
          "csv" with
      | error e => simp [selMonthLabels]
      | ok u2 =>
        simp only []
        cases env.download_report page (pyReplace (name ++ "_" ++ m) ' ' '_')
            "xlsx" with
        | error e => simp [selMonthLabels]
        | ok u3 =>
          simp only []
          cases env.page_close page with
          | error e => simp [selMonthLabels]
          | ok u4 => simp [selMonthLabels]

lemma month_range_item_attempts (env : ExpEnv) (name title m : String)
    (hnav : env.navigate_page "report" = .ok ())
    (hsearch : env.search_report name = .ok ())
    (hselect : env.select_report title = .ok ()) :
    selMonthsLabels
      ((ExperityReports.month_range_report env name title m m).1) = [(m, m)] := by
  simp only [ExperityReports.month_range_report, tbind, call, hnav, hsearch,
    hselect]
  cases env.select_months m m with
  | error e => simp [selMonthsLabels]
  | ok u =>
    simp only []
    cases env.run_report with
    | error e => simp [selMonthsLabels]
    | ok page =>
      simp only []
      cases env.download_report page
          (pyReplace (name ++ "_" ++ m ++ "_" ++ m) ' ' '_') "csv" with
      | error e => simp [selMonthsLabels]
      | ok u2 =>
        simp only []
        cases env.download_report page
            (pyReplace (name ++ "_" ++ m ++ "_" ++ m) ' ' '_') "xlsx" with
        | error e => simp [selMonthsLabels]
        | ok u3 =>
          simp only []
          cases env.page_close page with
          | error e => simp [selMonthsLabels]
          | ok u4 => simp [selMonthsLabels]

lemma selMonthLabels_flatten_items (env : ExpEnv) (name : String)
    (months : List String) :
    selMonthLabels
      ((months.map (ExperityReports.month_item env name)).flatten) = months := by
  induction months with
  | nil => rfl
  | cons m ms ih =>
    simp only [List.map_cons, List.flatten_cons, selMonthLabels,
      List.filterMap_append]
    have h1 := month_item_attempts env name m
    simp only [selMonthLabels] at h1 ih
    rw [h1, ih]
    rfl

lemma selMonthsLabels_flatten_items (env : ExpEnv) (name title : String)
    (months : List String)
    (hnav : env.navigate_page "report" = .ok ())
    (hsearch : env.search_report name = .ok ())
    (hselect : env.select_report title = .ok ()) :
    selMonthsLabels ((months.map (fun m =>
        (ExperityReports.month_range_report env name title m m).1)).flatten) =
      months.map (fun m => (m, m)) := by
  induction months with
  | nil => rfl
  | cons m ms ih =>
    simp only [List.map_cons, List.flatten_cons, selMonthsLabels,
      List.filterMap_append]
    have h1 := month_range_item_attempts env name title m hnav hsearch hselect
    simp only [selMonthsLabels] at h1 ih
    rw [h1, ih]
    rfl

lemma replace1_chain (l : List Char) :
    replace1 '/' '_' (replace1 ' ' '_' l) =
      l.map (fun c => if c = ' ' ∨ c = '/' then '_' else c) := by
  induction l with
  | nil => rfl
  | cons c cs ih =>
    simp only [replace1, List.map]
    rw [ih]
    by_cases h1 : c = ' '
    · subst h1
      simp
    · by_cases h2 : c = '/'
      · subst h2
        simp
      · simp [h1, h2]

/-! #### Claim theorems for the ExperityReports component -/

/-- C4: `login`, `logout`, `close_browser` and `collect_exception` catch and
log every failure of the operations they wrap and return normally (never
propagate an exception), so the login / logout / close lifecycle always runs
to completion. -/
theorem teardown_never_propagates (lib : HashLib) (env : ExpEnv) (now : Int)
    (credentails : Credentials) :
    (∃ logs, ExperityReports.login lib env now credentails = .ok logs) ∧
    (∃ logs, ExperityReports.logout env = .ok logs) ∧
    (∃ logs, ExperityReports.close_browser env = .ok logs) ∧
    (∃ logs, ExperityReports.collect_exception env = .ok logs) ∧
    (∀ e, ExperityReports.login_body lib env now credentails = .error e →
      ExperityReports.login lib env now credentails =
        .ok ["Unable to login: " ++ e]) ∧
    (∀ e, env.user_logout = .error e →
      ExperityReports.logout env = .ok ["Unable to logout: " ++ e]) ∧
    (∀ e, env.manager_close = .error e →
      ExperityReports.close_browser env =
        .ok ["Unable to close browser: " ++ e]) ∧
    (∀ e, env.collect_exception_artifacts = .error e →
      ExperityReports.collect_exception env =
        .ok ["Unable to collect exception artifacts from experity: " ++ e]) ∧
    ExperityReports.lifecycle lib env now credentails = .ok () := by
  have hlogin : ∃ logs,
      ExperityReports.login lib env now credentails = .ok logs := by
    cases h : ExperityReports.login_body lib env now credentails with
    | error e =>
      exact ⟨["Unable to login: " ++ e], by simp [ExperityReports.login, h]⟩
    | ok u => exact ⟨[], by simp [ExperityReports.login, h]⟩
  have hlogout : ∃ logs, ExperityReports.logout env = .ok logs := by
    cases h : env.user_logout with
    | error e =>
      exact ⟨["Unable to logout: " ++ e], by simp [ExperityReports.logout, h]⟩
    | ok u => exact ⟨[], by simp [ExperityReports.logout, h]⟩
  have hclose : ∃ logs, ExperityReports.close_browser env = .ok logs := by
    cases h : env.manager_close with
    | error e =>
      exact ⟨["Unable to close browser: " ++ e],
        by simp [ExperityReports.close_browser, h]⟩
    | ok u => exact ⟨[], by simp [ExperityReports.close_browser, h]⟩
  have hcollect : ∃ logs, ExperityReports.collect_exception env = .ok logs := by
    cases h : env.collect_exception_artifacts with
    | error e =>
      exact ⟨["Unable to collect exception artifacts from experity: " ++ e],
        by simp [ExperityReports.collect_exception, h]⟩
    | ok u => exact ⟨[], by simp [ExperityReports.collect_exception, h]⟩
  refine ⟨hlogin, hlogout, hclose, hcollect, ?_, ?_, ?_, ?_, ?_⟩
  · intro e he
    simp [ExperityReports.login, he]
  · intro e he
    simp [ExperityReports.logout, he]
  · intro e he
    simp [ExperityReports.close_browser, he]
  · intro e he
    simp [ExperityReports.collect_exception, he]
  · obtain ⟨l1, h1⟩ := hlogin
    obtain ⟨l2, h2⟩ := hlogout
    obtain ⟨l3, h3⟩ := hclose
    simp [ExperityReports.lifecycle, h1, h2, h3]

/-- C5: `month_report` attempts the select-month/run/download sequence for
every label in order — a per-label failure is caught and iteration continues
— and `month_range_report_monthly` has the same per-item fault tolerance. -/
theorem month_report_fault_tolerant (env : ExpEnv)
    (report_name report_title : String) (months : List String)
    (hnav : env.navigate_page "report" = .ok ())
    (hsearch : env.search_report report_name = .ok ())
    (hselect : env.select_report report_title = .ok ()) :
    (ExperityReports.month_report env report_name report_title months).2 =
      .ok () ∧
    selMonthLabels
      (ExperityReports.month_report env report_name report_title months).1 =
      months ∧
    (ExperityReports.month_range_report_monthly env report_name report_title
      months).2 = .ok () ∧
    selMonthsLabels
      (ExperityReports.month_range_report_monthly env report_name report_title
        months).1 = months.map (fun m => (m, m)) := by
  refine ⟨?_, ?_, rfl, ?_⟩
  · simp [ExperityReports.month_report, tbind, call, hnav, hsearch, hselect]
  · simp only [ExperityReports.month_report, tbind, call, hnav, hsearch,
      hselect]
    have := selMonthLabels_flatten_items env report_name months
    simp only [selMonthLabels] at this ⊢
    simp [this]
  · simp only [ExperityReports.month_range_report_monthly]
    exact selMonthsLabels_flatten_items env report_name report_title months
      hnav hsearch hselect

lemma date_range_trace_subset (env : ExpEnv)
    (report_name report_title from_date to_date : String) :
    ∀ ev ∈ (ExperityReports.date_range_report env report_name report_title
        from_date to_date).1,
      ev ∈ [Ev.navigate "report", Ev.search report_name,
        Ev.selectR report_title, Ev.selDates from_date to_date, Ev.run,
        Ev.download (pyReplace (pyReplace (report_name ++ "_" ++ from_date ++
          "_" ++ to_date) ' ' '_') '/' '_') "csv",
        Ev.download (pyReplace (pyReplace (report_name ++ "_" ++ from_date ++
          "_" ++ to_date) ' ' '_') '/' '_') "xlsx", Ev.pclose] := by
  simp only [ExperityReports.date_range_report, tbind, call]
  cases env.navigate_page "report" with
  | error e => simp
  | ok u1 =>
  simp only []
  cases env.search_report report_name with
  | error e => simp
  | ok u2 =>
  simp only []
  cases env.select_report report_title with
  | error e => simp
  | ok u3 =>
  simp only []
  cases env.select_dates from_date to_date with
  | error e => simp
  | ok u4 =>
  simp only []
  cases env.run_report with
  | error e => simp
  | ok page =>
  simp only []
  cases env.download_report page (pyReplace (pyReplace (report_name ++ "_" ++
      from_date ++ "_" ++ to_date) ' ' '_') '/' '_') "csv" with
  | error e => simp
  | ok u5 =>
  simp only []
  cases env.download_report page (pyReplace (pyReplace (report_name ++ "_" ++
      from_date ++ "_" ++ to_date) ' ' '_') '/' '_') "xlsx" with
  | error e => simp
  | ok u6 =>
  simp only []
  cases env.page_close page with
  | error e => simp
  | ok u7 => simp

/-- C8: every download issued by `date_range_report` uses the file stem
`code + "_" + from + "_" + to` with the two `replace` calls applied; that
stem equals the spec reading "every space and every slash replaced by an
underscore"; and on ("PAY 28", "05/01/2022", "02/24/2026") the stem is
`PAY_28_05_01_2022_02_24_2026`. -/
theorem date_range_report_file_stem (env : ExpEnv)
    (report_name report_title from_date to_date : String) :
    (∀ f fmt, Ev.download f fmt ∈
        (ExperityReports.date_range_report env report_name report_title
          from_date to_date).1 →
      f = pyReplace (pyReplace (report_name ++ "_" ++ from_date ++ "_" ++
        to_date) ' ' '_') '/' '_') ∧
    (∀ code fd td : String,
      pyReplace (pyReplace (code ++ "_" ++ fd ++ "_" ++ td) ' ' '_') '/' '_' =
        specStem code fd td) ∧
    pyReplace (pyReplace ("PAY 28" ++ "_" ++ "05/01/2022" ++ "_" ++
      "02/24/2026") ' ' '_') '/' '_' = "PAY_28_05_01_2022_02_24_2026" := by
  refine ⟨?_, ?_, by decide⟩
  · intro f fmt h
    have hmem := date_range_trace_subset env report_name report_title
      from_date to_date (Ev.download f fmt) h
    simp at hmem
    rcases hmem with ⟨rfl, _⟩ | ⟨rfl, _⟩ <;> rfl
  · intro code fd td
    unfold pyReplace specStem
    exact congrArg String.mk (replace1_chain _)

/-! #### Concrete environments for the ExperityReports witnesses -/

/-- An environment in which every operation succeeds. -/
def envOk : ExpEnv :=
  { open_portal := .ok ()
    user_login := fun _ _ => .ok ()
    enter_otp := fun _ => .ok ()
    user_logout := .ok ()
    manager_close := .ok ()
    collect_exception_artifacts := .ok ()
    navigate_page := fun _ => .ok ()
    search_report := fun _ => .ok ()
    select_report := fun _ => .ok ()
    select_month := fun _ => .ok ()
    select_months := fun _ _ => .ok ()
    select_dates := fun _ _ => .ok ()
    run_report := .ok 0
    download_report := fun _ _ _ => .ok ()
    page_close := fun _ => .ok () }

/-- An environment in which every operation raises. -/
def envFail : ExpEnv :=
  { open_portal := .error "boom"
    user_login := fun _ _ => .error "boom"
    enter_otp := fun _ => .error "boom"
    user_logout := .error "boom"
    manager_close := .error "boom"
    collect_exception_artifacts := .error "boom"
    navigate_page := fun _ => .error "boom"
    search_report := fun _ => .error "boom"
    select_report := fun _ => .error "boom"
    select_month := fun _ => .error "boom"
    select_months := fun _ _ => .error "boom"
    select_dates := fun _ _ => .error "boom"
    run_report := .error "boom"
    download_report := fun _ _ _ => .error "boom"
    page_close := fun _ => .error "boom" }

/-- Like `envOk`, but downloading the file derived from the month "BAD"
fails. -/
def envBad : ExpEnv :=
  { envOk with
    download_report := fun _ f _ =>
      if f = "CNT_BAD" then .error "report failed" else .ok () }

/-- Concrete credentials with an OTP passphrase configured. -/
def cred0 : Credentials :=
  { client_id := "16", username := "username", password := "password",
    auth_passphrase := some "GEZDGNBVGY" }

/-- Witness for C4: with every underlying operation failing, login still
returns normally with the logged error and the lifecycle completes. -/
theorem teardown_never_propagates_witness :
    ExperityReports.login lib0 envFail 0 cred0 =
      .ok ["Unable to login: boom"] ∧
    ExperityReports.lifecycle lib0 envFail 0 cred0 = .ok () := by
  have h := teardown_never_propagates lib0 envFail 0 cred0
  exact ⟨h.2.2.2.2.1 "boom" rfl, h.2.2.2.2.2.2.2.2⟩

/-- Witness for C5: with "BAD" failing at download time, the batch still
attempts all three labels, returns normally, and the downloads for
"Jan 2024" and "Mar 2024" are attempted. -/
theorem month_report_fault_tolerant_witness :
    (ExperityReports.month_report envBad "CNT" "Practice, CNT"
      ["Jan 2024", "BAD", "Mar 2024"]).2 = .ok () ∧
    selMonthLabels (ExperityReports.month_report envBad "CNT" "Practice, CNT"
      ["Jan 2024", "BAD", "Mar 2024"]).1 = ["Jan 2024", "BAD", "Mar 2024"] ∧
    Ev.download "CNT_Jan_2024" "csv" ∈
      (ExperityReports.month_report envBad "CNT" "Practice, CNT"
        ["Jan 2024", "BAD", "Mar 2024"]).1 ∧
    Ev.download "CNT_Mar_2024" "xlsx" ∈
      (ExperityReports.month_report envBad "CNT" "Practice, CNT"
        ["Jan 2024", "BAD", "Mar 2024"]).1 := by
  have h := month_report_fault_tolerant envBad "CNT" "Practice, CNT"
    ["Jan 2024", "BAD", "Mar 2024"] rfl rfl rfl
  exact ⟨h.1, h.2.1, by decide, by decide⟩

/-- Witness for C8 at the spec's example inputs. -/
theorem date_range_report_file_stem_witness :
    Ev.download "PAY_28_05_01_2022_02_24_2026" "csv" ∈
      (ExperityReports.date_range_report envOk "PAY 28" "Practice, PAY 28"
        "05/01/2022" "02/24/2026").1 ∧
    specStem "PAY 28" "05/01/2022" "02/24/2026" =
      "PAY_28_05_01_2022_02_24_2026" := by
  have h := date_range_report_file_stem envOk "PAY 28" "Practice, PAY 28"
    "05/01/2022" "02/24/2026"
  refine ⟨by decide, ?_⟩
  rw [← h.2.1 "PAY 28" "05/01/2022" "02/24/2026"]
  exact h.2.2

/-! ### ExperityBase (src/utils/automation/experity/experity_base.py)

The class drives a Playwright page; the page primitives used by
`navigate_page` / `_get_frames` are abstracted as a `NavEnv`, and the mutable
`self` fields touched by navigation form an explicit `ExperityState`.  The
trace of `page.goto` calls is returned so "underlying navigations" can be
counted. -/

/-- An opaque resolved Playwright frame handle. -/
structure Frame where
  id : Nat
  deriving Repr, DecidableEq

/-- Outcomes of the page primitives used by navigation. -/
structure NavEnv where
  goto : String → Except String Unit
  wait_networkidle : Except String Unit
  frame : String → Option Frame

/-- The session fields of `ExperityBase.__init__` that navigation reads or
writes. -/
structure ExperityState where
  base_url : String
  current_page : Option String
  main_frame : Option Frame
  nav_frame : Option Frame
  report_frame : Option Frame
  deriving Repr, DecidableEq

/-- The `pages` dict of `navigate_page`; a missing key is the `KeyError`
turned into `ValueError` by the handler. -/
def pagesMap (page_name : String) : Option String :=
  if page_name = "report" then some "Reports.aspx"
  else if page_name = "clinic" then some "ClinicInfo.aspx"
  else none

/-- Embedding of `ExperityBase._get_frames`: assign `main_frame` from the
page (a `None` there is the raised `ValueError`, after the assignment), then
tolerate absent `NavFrame` / `PVRC_MainStage`. -/
def ExperityBase._get_frames (env : NavEnv) (st : ExperityState) :
    Except String Unit × ExperityState :=
  match env.frame "reportMainWindow" with
  | none =>
    (.error "Main frame reportMainWindow not found",
     { st with main_frame := none })
  | some mf =>
    (.ok (),
     { st with main_frame := some mf, nav_frame := env.frame "NavFrame",
               report_frame := env.frame "PVRC_MainStage" })

/-- Embedding of `ExperityBase.navigate_page`.  The third component is the
trace of attempted `page.goto` calls.  An unknown name raises `ValueError`
before any network action; if `current_page` already equals the mapped
target the method returns immediately; otherwise it navigates, waits for
network-idle, records `current_page`, and (for "report") resolves frames —
note `current_page` is updated before `_get_frames` can raise. -/
def ExperityBase.navigate_page (env : NavEnv) (st : ExperityState)
    (page_name : String) :
    Except String Unit × ExperityState × List String :=
  match pagesMap page_name with
  | none => (.error ("Unsupported page name: " ++ page_name), st, [])
  | some target =>
    if st.current_page = some target then (.ok (), st, [])
    else
      let url := st.base_url ++ target
      match env.goto url with
      | .error e => (.error e, st, [url])
      | .ok _ =>
        match env.wait_networkidle with
        | .error e => (.error e, st, [url])
        | .ok _ =>
          let st1 := { st with current_page := some target }
          if page_name = "report" then
            match ExperityBase._get_frames env st1 with
            | (.error e, st2) => (.error e, st2, [url])
            | (.ok _, st2) => (.ok (), st2, [url])
          else (.ok (), st1, [url])

lemma _get_frames_current_page (env : NavEnv) (st : ExperityState) :
    ((ExperityBase._get_frames env st).2).current_page = st.current_page := by
  unfold ExperityBase._get_frames
  cases env.frame "reportMainWindow" <;> rfl

/-- If `navigate_page env st "report"` returns normally, the resulting
`current_page` is the mapped target. -/
lemma navigate_page_report_sets_current (env : NavEnv) (st : ExperityState)
    (st' : ExperityState) (tr : List String)
    (h : ExperityBase.navigate_page env st "report" = (.ok (), st', tr)) :
    st'.current_page = some "Reports.aspx" ∧
    (st.current_page = some "Reports.aspx" → st' = st ∧ tr = []) ∧
    (st.current_page ≠ some "Reports.aspx" →
      tr = [st.base_url ++ "Reports.aspx"]) := by
  have hp : pagesMap "report" = some "Reports.aspx" := rfl
  simp only [ExperityBase.navigate_page, hp] at h
  by_cases hcur : st.current_page = some "Reports.aspx"
  · rw [if_pos hcur] at h
    injection h with ha hbc
    injection hbc with hb hc
    subst hb
    subst hc
    exact ⟨hcur, fun _ => ⟨rfl, rfl⟩, fun hne => absurd hcur hne⟩
  · rw [if_neg hcur] at h
    cases hg : env.goto (st.base_url ++ "Reports.aspx") with
    | error e =>
      rw [hg] at h
      simp at h
    | ok u1 =>
      rw [hg] at h
      cases hw : env.wait_networkidle with
      | error e =>
        rw [hw] at h
        simp at h
      | ok u2 =>
        rw [hw] at h
        simp only [if_pos rfl] at h
        rcases hgf : ExperityBase._get_frames env
            { st with current_page := some "Reports.aspx" } with ⟨r, st2⟩
        rw [hgf] at h
        have hst2 : st2.current_page = some "Reports.aspx" := by
          have hcp := _get_frames_current_page env
            { st with current_page := some "Reports.aspx" }
          rw [hgf] at hcp
          exact hcp
        cases r with
        | error e => simp at h
        | ok u3 =>
          injection h with ha hbc
          injection hbc with hb hc
          subst hb
          subst hc
          exact ⟨hst2, fun hc => absurd hc hcur, fun _ => rfl⟩

/-- C6: navigation is idempotent on the current logical page — when
`current_page` already equals the mapped target, `navigate_page` returns
without any `goto` and leaves the state unchanged — so of two consecutive
`navigate("report")` calls, only the first issues a `goto` (exactly one when
the page was not already current) and the second is a no-op. -/
theorem navigate_page_idempotent (env env2 : NavEnv) (st : ExperityState) :
    (∀ page_name target, pagesMap page_name = some target →
      st.current_page = some target →
      ExperityBase.navigate_page env st page_name = (.ok (), st, [])) ∧
    (∀ st' tr,
      ExperityBase.navigate_page env st "report" = (.ok (), st', tr) →
      ExperityBase.navigate_page env2 st' "report" = (.ok (), st', []) ∧
      (st.current_page ≠ some "Reports.aspx" →
        tr = [st.base_url ++ "Reports.aspx"])) := by
  have noop : ∀ (env' : NavEnv) (s : ExperityState) page_name target,
      pagesMap page_name = some target → s.current_page = some target →
      ExperityBase.navigate_page env' s page_name = (.ok (), s, []) := by
    intro env' s page_name target h1 h2
    simp only [ExperityBase.navigate_page, h1]
    rw [if_pos h2]
  refine ⟨fun page_name target h1 h2 => noop env st page_name target h1 h2,
    fun st' tr h => ?_⟩
  obtain ⟨hcur, -, htr⟩ := navigate_page_report_sets_current env st st' tr h
  exact ⟨noop env2 st' "report" "Reports.aspx" rfl hcur, htr⟩

/-- A concrete navigation environment where every primitive succeeds and all
frames resolve. -/
def envNav : NavEnv :=
  { goto := fun _ => .ok ()
    wait_networkidle := .ok ()
    frame := fun _ => some { id := 1 } }

/-- A fresh session state before any navigation. -/
def st0 : ExperityState :=
  { base_url := "https://portal/", current_page := none, main_frame := none,
    nav_frame := none, report_frame := none }

/-- The state after one successful `navigate("report")` from `st0`. -/
def st1 : ExperityState :=
  { base_url := "https://portal/", current_page := some "Reports.aspx",
    main_frame := some { id := 1 }, nav_frame := some { id := 1 },
    report_frame := some { id := 1 } }

/-- Witness for C6: from a fresh state the first `navigate("report")` issues
exactly one `goto` and the second is a no-op. -/
theorem navigate_page_idempotent_witness :
    ExperityBase.navigate_page envNav st0 "report" =
      (.ok (), st1, ["https://portal/Reports.aspx"]) ∧
    ExperityBase.navigate_page envNav st1 "report" = (.ok (), st1, []) := by
  refine ⟨by decide, ?_⟩
  exact ((navigate_page_idempotent envNav envNav st0).2 st1
    ["https://portal/Reports.aspx"] (by decide)).1

/-! #### Diagnostic capture (`collect_exception_artifacts`) -/

/-- What one loop execution of `collect_exception_artifacts` produced. -/
inductive DiagEvent where
  | warned
  | captured (index : Nat) (path : String)
  | failed (index : Nat)
  deriving Repr, DecidableEq

/-- The browser context as diagnostic capture sees it: the pages of
`self.page.context.pages` (as opaque handles) and the outcome of
`page.screenshot` on each handle. -/
structure DiagEnv where
  pages : List Nat
  screenshot : Nat → Except String Unit

/-- The `for index, page in enumerate(pages)` loop: each iteration builds the
path, attempts the screenshot, and catches and logs its own failure, so the
loop always continues to the next page. -/
def ExperityBase.capture_loop (env : DiagEnv)
    (screenshot_dir label ts : String) : List (Nat × Nat) → List DiagEvent
  | [] => []
  | (index, page) :: rest =>
    (match env.screenshot page with
     | .ok _ =>
       DiagEvent.captured index
         (screenshot_dir ++ "/" ++ label ++ "_Window_" ++ toString index ++
           "_" ++ ts ++ ".png")
     | .error _ => DiagEvent.failed index) ::
    ExperityBase.capture_loop env screenshot_dir label ts rest

/-- Embedding of `ExperityBase.collect_exception_artifacts`: with no pages,
log a warning and return; otherwise run the per-page loop.  Every fallible
call inside the loop is wrapped in its own `try/except`, so the function has
no raising path at all — it returns its log/event list. -/
def ExperityBase.collect_exception_artifacts (env : DiagEnv)
    (screenshot_dir label ts : String) : List DiagEvent :=
  if env.pages = [] then [DiagEvent.warned]
  else ExperityBase.capture_loop env screenshot_dir label ts env.pages.enum

/-- The page indices whose capture was attempted. -/
def attemptedIndices (evs : List DiagEvent) : List Nat :=
  evs.filterMap (fun ev =>
    match ev with
    | .captured i _ => some i
    | .failed i => some i
    | .warned => none)

lemma capture_loop_attempts (env : DiagEnv) (d l t : String)
    (ps : List (Nat × Nat)) :
    attemptedIndices (ExperityBase.capture_loop env d l t ps) =
      ps.map Prod.fst := by
  induction ps with
  | nil => rfl
  | cons p rest ih =>
    obtain ⟨index, page⟩ := p
    simp only [ExperityBase.capture_loop, attemptedIndices, List.filterMap,
      List.map]
    cases env.screenshot page with
    | error e =>
      simp only [attemptedIndices] at ih
      simp [ih]
    | ok u =>
      simp only [attemptedIndices] at ih
      simp [ih]

/-- C9: diagnostic capture never raises — with zero open viewports it logs a
warning and returns normally, and with viewports present it attempts the
capture of every viewport in order, a per-viewport failure never preventing
the remaining attempts (the attempted indices are always all of them). -/
theorem collect_exception_artifacts_total (env : DiagEnv)
    (screenshot_dir label ts : String) :
    (env.pages = [] →
      ExperityBase.collect_exception_artifacts env screenshot_dir label ts =
        [DiagEvent.warned]) ∧
    attemptedIndices
      (ExperityBase.collect_exception_artifacts env screenshot_dir label ts) =
      List.range env.pages.length := by
  constructor
  · intro hempty
    simp [ExperityBase.collect_exception_artifacts, hempty]
  · by_cases hempty : env.pages = []
    · simp [ExperityBase.collect_exception_artifacts, hempty,
        attemptedIndices]
    · rw [ExperityBase.collect_exception_artifacts, if_neg hempty,
        capture_loop_attempts, List.enum_map_fst]

/-- A context with two pages whose first screenshot fails. -/
def diagEnv2 : DiagEnv :=
  { pages := [10, 11]
    screenshot := fun page => if page = 10 then .error "boom" else .ok () }

/-- A context with no pages. -/
def diagEnv0 : DiagEnv :=
  { pages := [], screenshot := fun _ => .ok () }

/-- Witness for C9: the empty context warns and returns; with two pages and
the first capture failing, both captures are still attempted. -/
theorem collect_exception_artifacts_total_witness :
    ExperityBase.collect_exception_artifacts diagEnv0 "shots" "Exception"
      "12_00_00_000000" = [DiagEvent.warned] ∧
    attemptedIndices (ExperityBase.collect_exception_artifacts diagEnv2
      "shots" "Exception" "12_00_00_000000") = [0, 1] := by
  constructor
  · exact (collect_exception_artifacts_total diagEnv0 "shots" "Exception"
      "12_00_00_000000").1 rfl
  · have h := (collect_exception_artifacts_total diagEnv2 "shots" "Exception"
      "12_00_00_000000").2
    rw [h]
    rfl

/-! #### Report-configuration primitives (select_month, select_months,
select_dates, select_date, parameter_filter)

Each of these wraps its whole body in `try/except Exception` with a log and
no re-raise.  The body touches `self.report_frame` (an `AttributeError` when
it is `None` — also caught) and the frame primitives below; the selector
strings are the source's, with the inner quotes dropped. -/

/-- Outcomes of the frame primitives used by the configuration methods. -/
structure SelEnv where
  select_option : String → String → Except String Unit
  fill : String → String → Except String Unit
  click : String → Except String Unit

/-- Body of `select_month`: one `select_option` on the `ClosingDate`
dropdown. -/
def ExperityBase.select_month_body (env : SelEnv) (report_frame : Option Frame)
    (month_year : String) : Except String String :=
  match report_frame with
  | none => .error "AttributeError: NoneType has no attribute select_option"
  | some _ =>
    match env.select_option "select[name=ClosingDate]" month_year with
    | .error e => .error e
    | .ok _ => .ok ("Selected month: " ++ month_year)

/-- `select_month`: body in `try/except` with a log and no raise. -/
def ExperityBase.select_month (env : SelEnv) (report_frame : Option Frame)
    (month_year : String) : Except String (List String) :=
  match ExperityBase.select_month_body env report_frame month_year with
  | .ok log => .ok [log]
  | .error e =>
    .ok ["Unable to select month " ++ month_year ++ ": " ++ e]

/-- Body of `select_months`: `select_option` on `FromClosingDate`, then on
`ToClosingDate`. -/
def ExperityBase.select_months_body (env : SelEnv)
    (report_frame : Option Frame) (from_month to_month : String) :
    Except String String :=
  match report_frame with
  | none => .error "AttributeError: NoneType has no attribute select_option"
  | some _ =>
    match env.select_option "select[name=FromClosingDate]" from_month with
    | .error e => .error e
    | .ok _ =>
      match env.select_option "select[name=ToClosingDate]" to_month with
      | .error e => .error e
      | .ok _ => .ok ("Selected to month: " ++ to_month)

/-- `select_months`: body in `try/except` with a log and no raise. -/
def ExperityBase.select_months (env : SelEnv) (report_frame : Option Frame)
    (from_month to_month : String) : Except String (List String) :=
  match ExperityBase.select_months_body env report_frame from_month
      to_month with
  | .ok log => .ok [log]
  | .error e =>
    .ok ["Unable to select from month " ++ from_month ++ " or to month " ++
      to_month ++ ": " ++ e]

/-- Body of `select_dates`: `fill` on `#FromServiceDate`, then on
`#ToServiceDate`. -/
def ExperityBase.select_dates_body (env : SelEnv)
    (report_frame : Option Frame) (from_date to_date : String) :
    Except String String :=
  match report_frame with
  | none => .error "AttributeError: NoneType has no attribute locator"
  | some _ =>
    match env.fill "#FromServiceDate" from_date with
    | .error e => .error e
    | .ok _ =>
      match env.fill "#ToServiceDate" to_date with
      | .error e => .error e
      | .ok _ => .ok ("Selected to date: " ++ to_date)

/-- `select_dates`: body in `try/except` with a log and no raise. -/
def ExperityBase.select_dates (env : SelEnv) (report_frame : Option Frame)
    (from_date to_date : String) : Except String (List String) :=
  match ExperityBase.select_dates_body env report_frame from_date to_date with
  | .ok log => .ok [log]
  | .error e =>
    .ok ["Unable to select from date " ++ from_date ++ " or to date " ++
      to_date ++ ": " ++ e]

/-- Body of `select_date`: one `fill` on `#ServiceDate`. -/
def ExperityBase.select_date_body (env : SelEnv) (report_frame : Option Frame)
    (date : String) : Except String String :=
  match report_frame with
  | none => .error "AttributeError: NoneType has no attribute locator"
  | some _ =>
    match env.fill "#ServiceDate" date with
    | .error e => .error e
    | .ok _ => .ok ("Selected date: " ++ date)

/-- `select_date`: body in `try/except` with a log and no raise. -/
def ExperityBase.select_date (env : SelEnv) (report_frame : Option Frame)
    (date : String) : Except String (List String) :=
  match ExperityBase.select_date_body env report_frame date with
  | .ok log => .ok [log]
  | .error e => .ok ["Unable to select date " ++ date ++ ": " ++ e]

/-- The `for uncheck_button, select_all in mapping.items()` loop of
`parameter_filter`: click the uncheck control, then the select-all control;
any failure aborts the loop (and is caught by the method's handler). -/
def ExperityBase.parameter_filter_loop (env : SelEnv)
    (report_frame : Option Frame) :
    List (String × String) → Except String Unit
  | [] => .ok ()
  | (uncheck_button, select_all) :: rest =>
    match report_frame with
    | none => .error "AttributeError: NoneType has no attribute locator"
    | some _ =>
      match env.click uncheck_button with
      | .error e => .error e
      | .ok _ =>
        match env.click select_all with
        | .error e => .error e
        | .ok _ => ExperityBase.parameter_filter_loop env report_frame rest

/-- `parameter_filter`: the loop in `try/except` with a log and no raise. -/
def ExperityBase.parameter_filter (env : SelEnv)
    (report_frame : Option Frame) (mapping : List (String × String)) :
    Except String (List String) :=
  match ExperityBase.parameter_filter_loop env report_frame mapping with
  | .ok _ => .ok ["Parameter filter applied."]
  | .error e => .ok ["Unable to apply parameter filter: " ++ e]

/-- C10: every report-configuration primitive — `select_month`,
`select_months`, `select_dates`, `select_date`, `parameter_filter` — catches
all exceptions of its body internally and returns normally with its log, for
every environment, frame state and input; and when the body fails the
returned log records the failure. -/
theorem config_primitives_never_propagate (env : SelEnv)
    (report_frame : Option Frame) (month_year from_s to_s date : String)
    (mapping : List (String × String)) :
    (∃ logs, ExperityBase.select_month env report_frame month_year =
      .ok logs) ∧
    (∃ logs, ExperityBase.select_months env report_frame from_s to_s =
      .ok logs) ∧
    (∃ logs, ExperityBase.select_dates env report_frame from_s to_s =
      .ok logs) ∧
    (∃ logs, ExperityBase.select_date env report_frame date = .ok logs) ∧
    (∃ logs, ExperityBase.parameter_filter env report_frame mapping =
      .ok logs) ∧
    (∀ e, ExperityBase.select_month_body env report_frame month_year =
        .error e →
      ExperityBase.select_month env report_frame month_year =
        .ok ["Unable to select month " ++ month_year ++ ": " ++ e]) ∧
    (∀ e, ExperityBase.parameter_filter_loop env report_frame mapping =
        .error e →
      ExperityBase.parameter_filter env report_frame mapping =
        .ok ["Unable to apply parameter filter: " ++ e]) := by
  refine ⟨?_, ?_, ?_, ?_, ?_, ?_, ?_⟩
  · cases h : ExperityBase.select_month_body env report_frame month_year with
    | error e =>
      exact ⟨["Unable to select month " ++ month_year ++ ": " ++ e],
        by simp [ExperityBase.select_month, h]⟩
    | ok log => exact ⟨[log], by simp [ExperityBase.select_month, h]⟩
  · cases h : ExperityBase.select_months_body env report_frame from_s
        to_s with
    | error e =>
      exact ⟨["Unable to select from month " ++ from_s ++ " or to month " ++
        to_s ++ ": " ++ e], by simp [ExperityBase.select_months, h]⟩
    | ok log => exact ⟨[log], by simp [ExperityBase.select_months, h]⟩
  · cases h : ExperityBase.select_dates_body env report_frame from_s to_s with
    | error e =>
      exact ⟨["Unable to select from date " ++ from_s ++ " or to date " ++
        to_s ++ ": " ++ e], by simp [ExperityBase.select_dates, h]⟩
    | ok log => exact ⟨[log], by simp [ExperityBase.select_dates, h]⟩
  · cases h : ExperityBase.select_date_body env report_frame date with
    | error e =>
      exact ⟨["Unable to select date " ++ date ++ ": " ++ e],
        by simp [ExperityBase.select_date, h]⟩
    | ok log => exact ⟨[log], by simp [ExperityBase.select_date, h]⟩
  · cases h : ExperityBase.parameter_filter_loop env report_frame mapping with
    | error e =>
      exact ⟨["Unable to apply parameter filter: " ++ e],
        by simp [ExperityBase.parameter_filter, h]⟩
    | ok u =>
      exact ⟨["Parameter filter applied."],
        by simp [ExperityBase.parameter_filter, h]⟩
  · intro e he
    simp [ExperityBase.select_month, he]
  · intro e he
    simp [ExperityBase.parameter_filter, he]

/-- Witness for C10: with no resolved report frame (the `AttributeError`
case), every primitive still returns normally with its error log. -/
theorem config_primitives_never_propagate_witness :
    ExperityBase.select_month
      { select_option := fun _ _ => .ok (), fill := fun _ _ => .ok (),
        click := fun _ => .ok () } none "May 2022" =
      .ok ["Unable to select month May 2022: AttributeError: NoneType has no attribute select_option"] ∧
    ExperityBase.parameter_filter
      { select_option := fun _ _ => .ok (), fill := fun _ _ => .ok (),
        click := fun _ => .ok () } none [("#u", "#a")] =
      .ok ["Unable to apply parameter filter: AttributeError: NoneType has no attribute locator"] := by
  have h := config_primitives_never_propagate
    { select_option := fun _ _ => .ok (), fill := fun _ _ => .ok (),
      click := fun _ => .ok () } none "May 2022" "f" "t" "d" [("#u", "#a")]
  exact ⟨h.2.2.2.2.2.1 _ rfl, h.2.2.2.2.2.2 _ rfl⟩

end Pythonic
